import Mathlib

/-!
Verification of the formsbot form aggregate, cooldown tracker and submission
pipeline, shallowly embedded from the Rust sources (`src/state.rs`,
`src/responses.rs`, `src/event_handler.rs`).  Rust strings are embedded as
`List Char`; `str::len` (a UTF-8 byte count) is `strBytes`; machine integers
(`u16`, `usize`, seconds as `u64`) are `Nat` (all values involved are far from
overflow: field counts are at most 5 and length caps at most 4096); the redis
TTL read, an `i64` that may be -2 or -1 for a missing key or a key with no
expiry, is `Int`.  Fallible operations return `Except`; Rust methods that
mutate `&mut self` and return `Result<T, E>` become functions returning
`Except E T × Form` (the second component is the final state, so an error
that leaves the value unchanged, or partially changed, is captured exactly).
-/

namespace Formsbot

/-- UTF-8 byte count of one Unicode scalar value, as Rust encodes a `char`
inside a `str`. -/
def charBytes (c : Char) : Nat :=
  if c.toNat ≤ 0x7F then 1
  else if c.toNat ≤ 0x7FF then 2
  else if c.toNat ≤ 0xFFFF then 3
  else 4

/-- Rust `str::len`: the UTF-8 byte length of a string (not its character
count). -/
def strBytes (s : List Char) : Nat := (s.map charBytes).sum

/-- Rust `std::time::Duration`: whole seconds and a sub-second nanosecond
part (in Rust the invariant `nanos < 10^9` holds; it is stated as a
hypothesis where a theorem needs it). -/
structure Duration where
  secs : Nat
  nanos : Nat
  deriving DecidableEq

/-- `Duration::from_secs`. -/
def Duration.from_secs (s : Nat) : Duration := ⟨s, 0⟩

/-- `Duration::as_secs`: truncates to whole seconds. -/
def Duration.as_secs (d : Duration) : Nat := d.secs

/-- `Duration::is_zero`. -/
def Duration.is_zero (d : Duration) : Bool := d.secs == 0 && d.nanos == 0

/-- `serenity::InputTextStyle`, restricted to the two variants the bot
creates (`src/commands/fields.rs` maps its `FieldStyle` choice onto exactly
these). -/
inductive InputTextStyle where
  | short
  | paragraph
  deriving DecidableEq

/-- `ValueTooLong` (src/state.rs): the validation error for over-long
titles, descriptions, field names and placeholders. -/
inductive ValueTooLong where
  | valueTooLong
  deriving DecidableEq

/-- `AddFieldError` (src/state.rs). -/
inductive AddFieldError where
  | tooManyFields
  | illegalAddBefore
  deriving DecidableEq

/-- `LABEL_MAX_LENGTH` (src/state.rs). -/
def LABEL_MAX_LENGTH : Nat := 45

/-- `PLACEHOLDER_MAX_LENGTH` (src/state.rs). -/
def PLACEHOLDER_MAX_LENGTH : Nat := 100

/-- `FIELD_RESPONSE_MAX_LENGTH` (src/state.rs). -/
def FIELD_RESPONSE_MAX_LENGTH : Nat := 1024

/-- `SerializableMention` (src/state.rs): a role or user to announce in
published results.  Ids are the numeric snowflakes. -/
inductive SerializableMention where
  | role (id : Nat)
  | user (id : Nat)
  deriving DecidableEq

/-- Rendering of `SerializableMention` through serenity's `Mention`
display: `<@&id>` for a role, `<@id>` for a user. -/
def SerializableMention.mentionText : SerializableMention → List Char
  | .role r => '<' :: '@' :: '&' :: (Nat.toDigits 10 r ++ ['>'])
  | .user u => '<' :: '@' :: (Nat.toDigits 10 u ++ ['>'])

/-- `FormField` (src/state.rs). -/
structure FormField where
  name : List Char
  style : InputTextStyle
  placeholder : Option (List Char)
  min_length : Option Nat
  max_length : Option Nat
  required : Bool
  inline : Bool
  deriving DecidableEq

/-- `FormField::validate_name` (src/state.rs): rejects names longer than
`LABEL_MAX_LENGTH` bytes. -/
def FormField.validate_name (name : List Char) : Except ValueTooLong Unit :=
  if strBytes name > LABEL_MAX_LENGTH then .error .valueTooLong else .ok ()

/-- `FormField::new` (src/state.rs). -/
def FormField.new (name : List Char) (style : InputTextStyle) :
    Except ValueTooLong FormField :=
  match FormField.validate_name name with
  | .error e => .error e
  | .ok () =>
    .ok { name, style, placeholder := none, min_length := none,
          max_length := none, required := true, inline := false }

/-- `FormField::set_name` (src/state.rs). -/
def FormField.set_name (f : FormField) (name : List Char) :
    Except ValueTooLong Unit × FormField :=
  match FormField.validate_name name with
  | .error e => (.error e, f)
  | .ok () => (.ok (), { f with name })

/-- `FormField::set_placeholder` (src/state.rs): rejects placeholders longer
than `PLACEHOLDER_MAX_LENGTH` bytes. -/
def FormField.set_placeholder (f : FormField) (placeholder : Option (List Char)) :
    Except ValueTooLong Unit × FormField :=
  match placeholder with
  | some p =>
    if strBytes p > PLACEHOLDER_MAX_LENGTH then (.error .valueTooLong, f)
    else (.ok (), { f with placeholder := some p })
  | none => (.ok (), { f with placeholder := none })

/-- `serenity::CreateInputText`, reduced to the attributes the bot sets: the
builder starts with style/label/custom id and no bounds or placeholder, and
each builder call fills one attribute. -/
structure CreateInputText where
  style : InputTextStyle
  label : List Char
  customId : List Char
  placeholder : Option (List Char)
  minLength : Option Nat
  maxLength : Option Nat
  required : Bool
  deriving DecidableEq

/-- `FormField::input_text` (src/state.rs), the builder chain
`CreateInputText::new(style, name, custom_id)` followed by
`.max_length(self.min_length.unwrap_or(FIELD_RESPONSE_MAX_LENGTH))`,
`.required(self.required)`, then `.placeholder(..)` when a placeholder is
set and `.min_length(..)` when `min_length` is set.  Note the source passes
`self.min_length` to the `max_length` builder call; `self.max_length` is
never read here. -/
def FormField.input_text (f : FormField) (custom_id : List Char) : CreateInputText :=
  let builder : CreateInputText :=
    { style := f.style, label := f.name, customId := custom_id,
      placeholder := none, minLength := none,
      maxLength := some (f.min_length.getD FIELD_RESPONSE_MAX_LENGTH),
      required := f.required }
  let builder :=
    match f.placeholder with
    | some p => { builder with placeholder := some p }
    | none => builder
  match f.min_length with
  | some m => { builder with minLength := some m }
  | none => builder

/-- One field of a result embed, as appended by
`FormField::apply_to_embed` (src/state.rs). -/
structure EmbedField where
  name : List Char
  value : List Char
  inline : Bool
  deriving DecidableEq

/-- `FormField::apply_to_embed` (src/state.rs): `embed.field(name, value,
inline)` appends one embed field.  The embed is modelled as its list of
fields (title/author/timestamp are presentation attributes no claim
touches). -/
def FormField.apply_to_embed (f : FormField) (embed : List EmbedField)
    (value : List Char) : List EmbedField :=
  embed ++ [{ name := f.name, value := value, inline := f.inline }]

/-- `Form` (src/state.rs).  The `id` attribute (a UUID drawn at random in
`Form::new`) is omitted: no claim concerns it and its generation is not a
pure function.  `destination` is the numeric channel id. -/
structure Form where
  title : List Char
  description : Option (List Char)
  fields : List FormField
  destination : Nat
  mention : Option SerializableMention
  cooldown : Option Duration
  deriving DecidableEq

/-- `Form::validate_title` (src/state.rs): rejects titles longer than 256
bytes. -/
def Form.validate_title (title : List Char) : Except ValueTooLong Unit :=
  if strBytes title > 256 then .error .valueTooLong else .ok ()

/-- `Form::new` (src/state.rs): a fresh form with the given title and
destination and no description, fields, mention or cooldown. -/
def Form.new (title : List Char) (destination : Nat) : Except ValueTooLong Form :=
  match Form.validate_title title with
  | .error e => .error e
  | .ok () =>
    .ok { title, description := none, fields := [], destination,
          mention := none, cooldown := none }

/-- `Form::set_title` (src/state.rs). -/
def Form.set_title (f : Form) (title : List Char) :
    Except ValueTooLong Unit × Form :=
  match Form.validate_title title with
  | .error e => (.error e, f)
  | .ok () => (.ok (), { f with title })

/-- `Form::set_description` (src/state.rs): rejects descriptions longer
than 4096 bytes. -/
def Form.set_description (f : Form) (description : Option (List Char)) :
    Except ValueTooLong Unit × Form :=
  match description with
  | some d =>
    if strBytes d > 4096 then (.error .valueTooLong, f)
    else (.ok (), { f with description := some d })
  | none => (.ok (), { f with description := none })

/-- `Form::set_cooldown` (src/state.rs): truncates the duration to whole
seconds with `Duration::from_secs(d.as_secs())` and drops it when the
truncation is zero. -/
def Form.set_cooldown (f : Form) (cooldown : Option Duration) : Form :=
  let c := (cooldown.map (fun d => Duration.from_secs d.as_secs)).filter (fun d => !d.is_zero)
  { f with cooldown := c }

/-- `serenity::CreateQuickModal`, reduced to the attributes the bot sets. -/
structure CreateQuickModal where
  title : List Char
  timeout : Option Nat
  fields : List CreateInputText
  deriving DecidableEq

/-- `Form::quick_modal` (src/state.rs): nothing for a fieldless form;
otherwise a modal titled after the form, with a 600-second timeout, whose
input lines are the fields in order, each with its index (rendered in
decimal) as custom id. -/
def Form.quick_modal (f : Form) : Option CreateQuickModal :=
  if f.fields.isEmpty then none
  else some
    { title := f.title, timeout := some 600,
      fields := f.fields.enum.map (fun p => p.2.input_text (Nat.toDigits 10 p.1)) }

/-- `Form::add_field` (src/state.rs): fails `TooManyFields` at five or more
fields; with `add_before` given, fails `IllegalAddBefore` past the current
count, otherwise inserts at that position (`Vec::insert`); without it,
appends. -/
def Form.add_field (f : Form) (field : FormField) (add_before : Option Nat) :
    Except AddFieldError Unit × Form :=
  if f.fields.length ≥ 5 then (.error .tooManyFields, f)
  else
    match add_before with
    | some i =>
      if i > f.fields.length then (.error .illegalAddBefore, f)
      else (.ok (), { f with fields := f.fields.take i ++ field :: f.fields.drop i })
    | none => (.ok (), { f with fields := f.fields ++ [field] })

/-- `Form::remove_field` (src/state.rs): removes the field at `index`
(`Vec::remove`) and reports whether the index was in bounds. -/
def Form.remove_field (f : Form) (index : Nat) : Bool × Form :=
  if index < f.fields.length then (true, { f with fields := f.fields.eraseIdx index })
  else (false, f)

/-- `Form::move_field` (src/state.rs): `Ok(false)` when `index` is out of
bounds; `IllegalAddBefore` when `destination` is not below the current
count; otherwise removes the field at `index` and re-adds it with
`add_field(field, Some(destination))`, propagating that call's error (after
the removal, as the `?` in the source does). -/
def Form.move_field (f : Form) (index destination : Nat) :
    Except AddFieldError Bool × Form :=
  if h : index < f.fields.length then
    if destination ≥ f.fields.length then (.error .illegalAddBefore, f)
    else
      let field := f.fields.get ⟨index, h⟩
      let f1 : Form := { f with fields := f.fields.eraseIdx index }
      let r := f1.add_field field (some destination)
      (r.1.map (fun _ => true), r.2)
  else (.ok false, f)

/-- `State::cooldown` (src/state.rs): reads the redis TTL of the cooldown
key for a (guild, form, user) triple; any TTL ≤ 0 (including redis' -2 for
a missing key and -1 for a key without expiry) means no remaining cooldown,
a positive TTL is the remaining whole seconds.  The tracker state relevant
to one trigger event is that single key's TTL, passed explicitly. -/
def State.cooldown (ttl : Int) : Option Duration :=
  if ttl ≤ 0 then none else some (Duration.from_secs ttl.toNat)

/-- `State::trigger_cooldown` (src/state.rs): a no-op when the form has no
cooldown; otherwise overwrites the key with expiry `EX duration.as_secs()`,
so the key's TTL becomes the form cooldown's whole-second count. -/
def State.trigger_cooldown (ttl : Int) (form : Form) : Int :=
  match form.cooldown with
  | none => ttl
  | some d => Int.ofNat d.as_secs

/-- The message posted into the new private thread, reduced to its content
line and embed fields (the parts the spec's composition rule concerns). -/
structure ResultMessage where
  content : Option (List Char)
  embedFields : List EmbedField
  deriving DecidableEq

/-- Rust `str::trim_end` on the embedded string: drop trailing whitespace. -/
def trimEnd (s : List Char) : List Char :=
  (s.reverse.dropWhile Char.isWhitespace).reverse

/-- The message composition of `create_response` (src/responses.rs): embed
fields are the form's fields zipped in order with the submitted inputs,
each appended by `apply_to_embed`; the content starts absent, becomes the
mention text plus a newline when a mention is set, gets the description
appended (onto the empty string when no mention) when one is set, and is
attached trimmed of trailing whitespace when non-absent. -/
def create_response_message (form : Form) (inputs : List (List Char)) : ResultMessage :=
  let embed : List EmbedField :=
    (form.fields.zip inputs).foldl (fun acc p => p.1.apply_to_embed acc p.2) []
  let content0 : Option (List Char) := form.mention.map (fun m => m.mentionText ++ ['\n'])
  let content1 : Option (List Char) :=
    match form.description with
    | none => content0
    | some d => some (content0.getD [] ++ d)
  { content := content1.map trimEnd, embedFields := embed }

/-- The terminal report a pipeline run sends to the acting user. -/
inductive Report where
  | blocked (remaining : Duration)
  | formMissing
  | notConfigured
  | threadCreated
  deriving DecidableEq

/-- The text of each report.  `formMissing` and `notConfigured` carry the
exact strings of the handler (src/event_handler.rs); the `blocked` text is
modelled from the spec (report the remaining time), the `threadCreated`
text stands for the link-bearing acknowledgement update. -/
def Report.content : Report → List Char
  | .blocked d => ("You must wait ").data ++ Nat.toDigits 10 d.as_secs ++ (" seconds before submitting this form again").data
  | .formMissing => ("This form no longer exists").data
  | .notConfigured => ("This form is not correctly configured").data
  | .threadCreated => ("A thread has been created").data

/-- Every pipeline report goes to the acting user only: the handler flags
its responses `.ephemeral(true)` or defers ephemerally. -/
def Report.ephemeral : Report → Bool := fun _ => true

/-- Everything observable about one run of the submission pipeline: the
report sent, whether the prompt was shown, whether the dispatcher (thread
creation and posting) was invoked, whether the cooldown trigger ran, the
cooldown key's TTL after the run, and the result message posted. -/
structure PipelineOutcome where
  report : Option Report
  promptShown : Bool
  dispatcherCalled : Bool
  triggerCalled : Bool
  finalTTL : Int
  resultMessage : Option ResultMessage
  deriving DecidableEq

/-- Modelled from the spec: the submission-pipeline driver of §4.3, steps
1–8.  The event-handler revision that wires these steps together is absent
from the sources (the `event_handler.rs` present is a superseded revision
that never consults the cooldown tracker and predates `create_response`),
so the driver follows the spec's transitions while delegating every step to
a function embedded from the sources: `State.cooldown` for the gate,
`Form.quick_modal` for the prompt, `create_response_message` for the posted
result and `State.trigger_cooldown` for the cooldown write.  Inputs outside
the pipeline's control are passed explicitly: the cooldown key's TTL, the
form-store lookup result, the destination-permission check, the prompt
outcome (`none` for cancellation or timeout) and the dispatch outcome. -/
def runPipeline (ttl : Int) (formLookup : Option Form) (permissionOk : Bool)
    (promptResult : Option (List (List Char))) (dispatchOk : Bool) : PipelineOutcome :=
  match State.cooldown ttl with
  | some remaining =>
    { report := some (.blocked remaining), promptShown := false,
      dispatcherCalled := false, triggerCalled := false, finalTTL := ttl,
      resultMessage := none }
  | none =>
    match formLookup with
    | none =>
      { report := some .formMissing, promptShown := false,
        dispatcherCalled := false, triggerCalled := false, finalTTL := ttl,
        resultMessage := none }
    | some form =>
      if permissionOk then
        match form.quick_modal with
        | some _modal =>
          match promptResult with
          | none =>
            { report := none, promptShown := true, dispatcherCalled := false,
              triggerCalled := false, finalTTL := ttl, resultMessage := none }
          | some inputs =>
            if dispatchOk then
              { report := some .threadCreated, promptShown := true,
                dispatcherCalled := true, triggerCalled := true,
                finalTTL := State.trigger_cooldown ttl form,
                resultMessage := some (create_response_message form inputs) }
            else
              { report := none, promptShown := true, dispatcherCalled := true,
                triggerCalled := false, finalTTL := ttl, resultMessage := none }
        | none =>
          { report := some .notConfigured, promptShown := false,
            dispatcherCalled := false, triggerCalled := false, finalTTL := ttl,
            resultMessage := none }
      else
        { report := some .notConfigured, promptShown := false,
          dispatcherCalled := false, triggerCalled := false, finalTTL := ttl,
          resultMessage := none }

/-- A concrete short-style field used by witnesses. -/
def sampleField (name : List Char) : FormField :=
  { name := name, style := .short, placeholder := none, min_length := none,
    max_length := none, required := true, inline := false }

/-- A concrete five-field form used by witnesses. -/
def sampleForm5 : Form :=
  { title := ("My Title").data, description := none,
    fields := [sampleField ("Field 0").data, sampleField ("Field 1").data,
               sampleField ("Field 2").data, sampleField ("Field 3").data,
               sampleField ("Field 4").data],
    destination := 123, mention := none, cooldown := none }

/-- A concrete one-field form with mention, description and cooldown, used
by witnesses. -/
def sampleForm1 : Form :=
  { title := ("My Title").data, description := some ("Please read").data,
    fields := [sampleField ("Field 0").data],
    destination := 123, mention := some (.role 9), cooldown := some ⟨60, 0⟩ }

/-- A concrete fieldless form used by witnesses. -/
def sampleForm0 : Form :=
  { title := ("My Title").data, description := none, fields := [],
    destination := 123, mention := none, cooldown := none }

/-- A field whose bounds exhibit the prompt-line length slip: minimum 2,
maximum 500. -/
def c4Field : FormField :=
  { name := ("Answer").data, style := .short, placeholder := none,
    min_length := some 2, max_length := some 500, required := true,
    inline := false }

/-- A field with a maximum of 500 and no minimum. -/
def c4FieldNoMin : FormField :=
  { name := ("Answer").data, style := .short, placeholder := none,
    min_length := none, max_length := some 500, required := true,
    inline := false }

/-! Helper lemmas. -/

/-- Erasing the element at `i` and re-inserting it at position `i` restores
the list. -/
theorem eraseIdx_take_get_drop {α : Type} (l : List α) (i : Nat) (h : i < l.length) :
    (l.eraseIdx i).take i ++ l.get ⟨i, h⟩ :: (l.eraseIdx i).drop i = l := by
  have h1 : (l.take i).length = i := by rw [List.length_take]; omega
  rw [List.eraseIdx_eq_take_drop_succ, List.take_left' h1, List.drop_left' h1,
    List.get_eq_getElem, ← List.drop_eq_getElem_cons h, List.take_append_drop]

/-- Folding `apply_to_embed` over field/input pairs appends one embed field
per pair, in order. -/
theorem foldl_apply_to_embed (l : List (FormField × List Char)) (acc : List EmbedField) :
    l.foldl (fun acc p => p.1.apply_to_embed acc p.2) acc =
      acc ++ l.map (fun p => { name := p.1.name, value := p.2, inline := p.1.inline }) := by
  induction l generalizing acc with
  | nil => simp
  | cons hd tl ih =>
    rw [List.foldl_cons, ih]
    simp [FormField.apply_to_embed]

/-- Mapping the embed-field construction over a zip is a zipWith. -/
theorem map_zip_eq_zipWith :
    ∀ (l : List FormField) (l' : List (List Char)),
      (l.zip l').map (fun p =>
          ({ name := p.1.name, value := p.2, inline := p.1.inline } : EmbedField)) =
        List.zipWith (fun fld v =>
          { name := fld.name, value := v, inline := fld.inline }) l l'
  | [], _ => by simp
  | _ :: _, [] => by simp
  | a :: l, b :: l' => by simp [map_zip_eq_zipWith l l']

/-- The prompt line keeps the field's label. -/
theorem input_text_label (f : FormField) (cid : List Char) :
    (f.input_text cid).label = f.name := by
  unfold FormField.input_text
  rcases f.placeholder with _ | p <;> rcases f.min_length with _ | m <;> rfl

/-- A character of code point at most 127 occupies one UTF-8 byte, so the
byte length of an ASCII string is its character count. -/
theorem strBytes_ascii (s : List Char) (h : ∀ c ∈ s, c.toNat ≤ 127) :
    strBytes s = s.length := by
  induction s with
  | nil => rfl
  | cons c t ih =>
    have hc : charBytes c = 1 := by
      unfold charBytes
      rw [if_pos (h c (List.mem_cons_self c t))]
    have ht := ih (fun x hx => h x (List.mem_cons_of_mem c hx))
    simp [strBytes] at ht ⊢
    omega

/-- `add_field` never grows a form beyond five fields. -/
theorem add_field_length_le (f : Form) (fld : FormField) (before : Option Nat)
    (h : f.fields.length ≤ 5) : ((f.add_field fld before).2.fields.length ≤ 5) := by
  rcases before with _ | i <;>
    simp only [Form.add_field] <;> split_ifs <;>
      simp [List.length_take, List.length_drop] <;> omega

/-- `move_field` never grows a form beyond five fields. -/
theorem move_field_length_le (f : Form) (i d : Nat) (h : f.fields.length ≤ 5) :
    ((f.move_field i d).2.fields.length ≤ 5) := by
  unfold Form.move_field
  split
  next hlt =>
    split
    · exact h
    · apply add_field_length_le
      simp [List.length_eraseIdx, hlt]
      omega
  next => exact h

/-! Claim theorems. -/

/-- Claim C4, evaluated at the failing input: the prompt line built for a
field with minimum length 2 and maximum length 500 carries maximum length
2, and the line for a field with maximum 500 and no minimum carries maximum
length 1024 — `input_text` passes the field's `min_length` (with the 1024
fallback) to the builder's `max_length` and never reads the field's
`max_length`, contrary to the claim that each line carries the field's own
`maxLength` as its maximum. -/
theorem c4_prompt_line_max_from_min :
    (c4Field.input_text []).maxLength = some 2 ∧ c4Field.max_length = some 500
  ∧ (c4FieldNoMin.input_text []).maxLength = some 1024
  ∧ c4FieldNoMin.max_length = some 500
  ∧ (c4Field.input_text []).minLength = some 2 := by
  refine ⟨rfl, rfl, rfl, rfl, rfl⟩

/-- Claim C9: `set_cooldown` cannot fail; clearing stores none; a duration
is truncated to whole seconds and dropped when the truncation is zero, so
every duration below one second normalizes to none, and a stored cooldown
is never zero nor sub-second-fractional. -/
theorem c9_set_cooldown_normalizes (f : Form) (d : Duration) (c : Option Duration) :
    (f.set_cooldown none).cooldown = none
  ∧ (f.set_cooldown (some d)).cooldown =
      (if d.secs = 0 then none else some (Duration.from_secs d.as_secs))
  ∧ (d.secs = 0 → (f.set_cooldown (some d)).cooldown = none)
  ∧ (∀ r, (f.set_cooldown c).cooldown = some r → 0 < r.secs ∧ r.nanos = 0) := by
  have key : ∀ e : Duration, (f.set_cooldown (some e)).cooldown =
      (if e.secs = 0 then none else some (Duration.from_secs e.as_secs)) := by
    intro e
    by_cases he : e.secs = 0 <;>
      simp [Form.set_cooldown, Option.filter, Duration.is_zero, Duration.from_secs,
        Duration.as_secs, he]
  refine ⟨rfl, key d, fun h0 => by rw [key d, if_pos h0], ?_⟩
  intro r hr
  rcases c with _ | e
  · simp [Form.set_cooldown, Option.filter] at hr
  · rw [key e] at hr
    by_cases he : e.secs = 0
    · rw [if_pos he] at hr; cases hr
    · rw [if_neg he] at hr
      cases hr
      exact ⟨Nat.pos_of_ne_zero he, rfl⟩

/-- Claim C7: for a form under the five-field cap, adding with
`insertBefore` equal to the field count is the same operation as appending
without it; an `insertBefore` beyond the count fails `IllegalAddBefore`
leaving the form unchanged; an `insertBefore` below the count puts the new
field at that position, shifting the fields from there one place later. -/
theorem c7_add_field_positions (f : Form) (fld : FormField) (h : f.fields.length < 5) :
    f.add_field fld (some f.fields.length) = f.add_field fld none
  ∧ (∀ i, f.fields.length < i → f.add_field fld (some i) = (.error .illegalAddBefore, f))
  ∧ (∀ i, i < f.fields.length →
      f.add_field fld (some i) =
        (.ok (), { f with fields := f.fields.take i ++ fld :: f.fields.drop i })) := by
  have hnot : ¬ f.fields.length ≥ 5 := by omega
  refine ⟨?_, ?_, ?_⟩
  · simp [Form.add_field, hnot, List.take_length, List.drop_length]
  · intro i hi
    simp [Form.add_field, hnot, hi]
  · intro i hi
    have : ¬ i > f.fields.length := by omega
    simp [Form.add_field, hnot, this]

/-- Claim C6: the aggregate preserves the five-field capacity invariant: a
newly created form has no fields; adding to a form that already has five
fields fails `TooManyFields` whatever `insertBefore` is, leaving the field
sequence unchanged; and `addField`, `removeField`, `moveField` and the
attribute setters keep the field sequence at five or fewer. -/
theorem c6_capacity_invariant (t : List Char) (dest : Nat) (f : Form)
    (fld : FormField) (before : Option Nat) (i d : Nat) (c : Option Duration)
    (od : Option (List Char)) :
    (∀ g, Form.new t dest = .ok g → g.fields = [])
  ∧ (f.fields.length = 5 → f.add_field fld before = (.error .tooManyFields, f))
  ∧ (f.fields.length ≤ 5 → ((f.add_field fld before).2.fields.length ≤ 5))
  ∧ (f.fields.length ≤ 5 → ((f.remove_field i).2.fields.length ≤ 5))
  ∧ (f.fields.length ≤ 5 → ((f.move_field i d).2.fields.length ≤ 5))
  ∧ (f.set_cooldown c).fields = f.fields
  ∧ (f.set_title t).2.fields = f.fields
  ∧ (f.set_description od).2.fields = f.fields := by
  refine ⟨?_, ?_, fun h => add_field_length_le f fld before h, ?_,
    fun h => move_field_length_le f i d h, rfl, ?_, ?_⟩
  · intro g hg
    unfold Form.new at hg
    split at hg
    · cases hg
    · cases hg
      rfl
  · intro h5
    simp [Form.add_field, h5]
  · intro h
    unfold Form.remove_field
    split
    next hlt =>
      simp [List.length_eraseIdx, hlt]
      omega
    next => exact h
  · unfold Form.set_title
    split <;> rfl
  · rcases od with _ | x
    · rfl
    · simp only [Form.set_description]
      split <;> rfl

/-- Witness for C6 at a concrete five-field form: adding fails
`TooManyFields` and the form is unchanged. -/
theorem c6_capacity_invariant_witness :
    sampleForm5.add_field (sampleField ("X").data) (some 2) =
      (.error .tooManyFields, sampleForm5) :=
  (c6_capacity_invariant [] 0 sampleForm5 (sampleField ("X").data) (some 2) 0 0
    none none).2.1 (by decide)

/-- Claim C5: `moveField(index, destination)` returns false leaving the
sequence unchanged when `index` is out of bounds; fails `IllegalAddBefore`
(so never `TooManyFields`) when `index` is in bounds but `destination` is
not; otherwise succeeds, the result being the sequence with the element
removed from `index` and inserted at position `destination` of the
post-removal sequence — in particular moving a field onto its own position
succeeds and changes nothing, and on a five-field form `[g0..g4]`,
`moveField(4,0)` yields `[g4,g0,g1,g2,g3]` and `moveField(0,4)` yields
`[g1,g2,g3,g4,g0]`. -/
theorem c5_move_field_semantics (f : Form) (hcap : f.fields.length ≤ 5) (i d : Nat) :
    (f.fields.length ≤ i → f.move_field i d = (.ok false, f))
  ∧ (i < f.fields.length → f.fields.length ≤ d →
      f.move_field i d = (.error .illegalAddBefore, f))
  ∧ (∀ hi : i < f.fields.length, d < f.fields.length →
      f.move_field i d = (.ok true,
        { f with fields := (f.fields.eraseIdx i).take d ++
            f.fields.get ⟨i, hi⟩ :: (f.fields.eraseIdx i).drop d }))
  ∧ (i < f.fields.length → f.move_field i i = (.ok true, f))
  ∧ (∀ g0 g1 g2 g3 g4, f.fields = [g0, g1, g2, g3, g4] →
      (f.move_field 4 0).2.fields = [g4, g0, g1, g2, g3]
    ∧ (f.move_field 0 4).2.fields = [g1, g2, g3, g4, g0]
    ∧ (f.move_field 4 0).1 = .ok true ∧ (f.move_field 0 4).1 = .ok true) := by
  have partC : ∀ (j k : Nat) (hj : j < f.fields.length), k < f.fields.length →
      f.move_field j k = (.ok true,
        { f with fields := (f.fields.eraseIdx j).take k ++
            f.fields.get ⟨j, hj⟩ :: (f.fields.eraseIdx j).drop k }) := by
    intro j k hj hk
    have hlen : (f.fields.eraseIdx j).length = f.fields.length - 1 := by
      rw [List.length_eraseIdx, if_pos hj]
    simp only [Form.move_field, dif_pos hj,
      if_neg (by omega : ¬ k ≥ f.fields.length)]
    simp only [Form.add_field, hlen]
    rw [if_neg (by omega : ¬ f.fields.length - 1 ≥ 5),
      if_neg (by omega : ¬ k > f.fields.length - 1)]
    rfl
  refine ⟨?_, ?_, fun hi hd => partC i d hi hd, ?_, ?_⟩
  · intro hge
    simp [Form.move_field, dif_neg (by omega : ¬ i < f.fields.length)]
  · intro hlt hge
    simp [Form.move_field, dif_pos hlt, if_pos (hge : d ≥ f.fields.length)]
  · intro hi
    rw [partC i i hi hi, eraseIdx_take_get_drop f.fields i hi]
  · rintro g0 g1 g2 g3 g4 hf
    obtain ⟨ti, de, fl, ds, mn, cd⟩ := f
    replace hf : fl = [g0, g1, g2, g3, g4] := hf
    subst hf
    exact ⟨rfl, rfl, rfl, rfl⟩

/-- Witness for C5 at a concrete five-field form: the two rotations and the
same-position no-op. -/
theorem c5_move_field_semantics_witness :
    (sampleForm5.move_field 4 0).2.fields =
      [sampleField ("Field 4").data, sampleField ("Field 0").data,
       sampleField ("Field 1").data, sampleField ("Field 2").data,
       sampleField ("Field 3").data]
  ∧ sampleForm5.move_field 2 2 = (.ok true, sampleForm5) := by
  refine ⟨((c5_move_field_semantics sampleForm5 (by decide) 4 0).2.2.2.2
      (sampleField ("Field 0").data) (sampleField ("Field 1").data)
      (sampleField ("Field 2").data) (sampleField ("Field 3").data)
      (sampleField ("Field 4").data) rfl).1,
    (c5_move_field_semantics sampleForm5 (by decide) 2 2).2.2.2.1 (by decide)⟩

/-- Witness for C9 at concrete durations: half a second normalizes to no
cooldown; 3 s plus 7 ns is stored as exactly 3 s. -/
theorem c9_set_cooldown_normalizes_witness :
    (sampleForm0.set_cooldown (some ⟨0, 500000000⟩)).cooldown = none
  ∧ (0 < (Duration.mk 3 0).secs ∧ (Duration.mk 3 0).nanos = 0) :=
  ⟨(c9_set_cooldown_normalizes sampleForm0 ⟨0, 500000000⟩ (some ⟨3, 7⟩)).2.2.1 rfl,
   (c9_set_cooldown_normalizes sampleForm0 ⟨0, 500000000⟩ (some ⟨3, 7⟩)).2.2.2
     ⟨3, 0⟩ rfl⟩

/-- Witness for C7 at a concrete one-field form: inserting at the field
count appends. -/
theorem c7_add_field_positions_witness :
    sampleForm1.add_field (sampleField ("X").data) (some 1) =
      sampleForm1.add_field (sampleField ("X").data) none :=
  (c7_add_field_positions sampleForm1 (sampleField ("X").data) (by decide)).1

/-- Claim C1: when the cooldown tracker reports remaining time, the
pipeline terminates Blocked, reporting exactly that remaining time with an
ephemeral message; the prompt is not shown, the dispatcher is not called,
no cooldown entry is written (the key's TTL is untouched) and no result
message exists. -/
theorem c1_blocked_is_terminal (ttl : Int) (formLookup : Option Form)
    (permissionOk : Bool) (promptResult : Option (List (List Char)))
    (dispatchOk : Bool) (r : Duration) (h : State.cooldown ttl = some r) :
    runPipeline ttl formLookup permissionOk promptResult dispatchOk =
      { report := some (.blocked r), promptShown := false,
        dispatcherCalled := false, triggerCalled := false, finalTTL := ttl,
        resultMessage := none }
    ∧ (Report.blocked r).ephemeral = true := by
  unfold runPipeline
  rw [h]
  exact ⟨rfl, rfl⟩

/-- Witness for C1: a user five seconds into a cooldown is blocked. -/
theorem c1_blocked_is_terminal_witness :
    runPipeline 5 (some sampleForm1) true (some [("hi").data]) true =
      { report := some (.blocked ⟨5, 0⟩), promptShown := false,
        dispatcherCalled := false, triggerCalled := false, finalTTL := 5,
        resultMessage := none } :=
  (c1_blocked_is_terminal 5 (some sampleForm1) true (some [("hi").data]) true
    ⟨5, 0⟩ rfl).1

/-- Claim C2: the cooldown trigger runs exactly when the dispatcher was
invoked and dispatch succeeded; when it runs, the written entry comes from
the loaded form copy's cooldown duration (via `trigger_cooldown`); on every
other path — blocked, form missing, misconfigured, cancelled, or dispatch
failure — the cooldown key's TTL is unchanged. -/
theorem c2_trigger_exactly_on_dispatch_success (ttl : Int)
    (formLookup : Option Form) (permissionOk : Bool)
    (promptResult : Option (List (List Char))) (dispatchOk : Bool) :
    ((runPipeline ttl formLookup permissionOk promptResult dispatchOk).triggerCalled = true ↔
      ((runPipeline ttl formLookup permissionOk promptResult dispatchOk).dispatcherCalled = true
        ∧ dispatchOk = true))
  ∧ (∀ form, formLookup = some form →
      (runPipeline ttl formLookup permissionOk promptResult dispatchOk).triggerCalled = true →
      (runPipeline ttl formLookup permissionOk promptResult dispatchOk).finalTTL =
        State.trigger_cooldown ttl form)
  ∧ ((runPipeline ttl formLookup permissionOk promptResult dispatchOk).triggerCalled = false →
      (runPipeline ttl formLookup permissionOk promptResult dispatchOk).finalTTL = ttl) := by
  cases hc : State.cooldown ttl with
  | some r => simp [runPipeline, hc]
  | none =>
    cases formLookup with
    | none => simp [runPipeline, hc]
    | some form =>
      cases permissionOk with
      | false => simp [runPipeline, hc]
      | true =>
        cases hm : form.quick_modal with
        | none => simp [runPipeline, hc, hm]
        | some m =>
          cases promptResult with
          | none => simp [runPipeline, hc, hm]
          | some inputs =>
            cases dispatchOk with
            | false => simp [runPipeline, hc, hm]
            | true => simp [runPipeline, hc, hm]

/-- Witness for C2: a successful dispatch on a form with a 60-second
cooldown leaves the key's TTL at 60. -/
theorem c2_trigger_exactly_on_dispatch_success_witness :
    (runPipeline 0 (some sampleForm1) true (some [("hi").data]) true).finalTTL =
      State.trigger_cooldown 0 sampleForm1 :=
  (c2_trigger_exactly_on_dispatch_success 0 (some sampleForm1) true
    (some [("hi").data]) true).2.1 sampleForm1 rfl rfl

/-- The composed result message in closed form: content by cases on
mention and description, embed fields a zipWith over fields and inputs. -/
theorem create_response_message_eq (form : Form) (inputs : List (List Char)) :
    create_response_message form inputs =
      { content :=
          match form.mention, form.description with
          | none, none => none
          | some mn, none => some (trimEnd (mn.mentionText ++ ['\n']))
          | none, some dsc => some (trimEnd dsc)
          | some mn, some dsc => some (trimEnd (mn.mentionText ++ '\n' :: dsc)),
        embedFields := List.zipWith
          (fun fld v => { name := fld.name, value := v, inline := fld.inline })
          form.fields inputs } := by
  unfold create_response_message
  rw [foldl_apply_to_embed, List.nil_append, map_zip_eq_zipWith]
  rcases hm : form.mention with _ | mn <;>
    rcases hd : form.description with _ | dsc <;>
      simp [hm, hd, List.append_assoc]

/-- Claim C3: on a successful submission, the message posted into the new
private thread consists of the mention line when a mention is set, then
the description when one is set (the content trimmed of trailing
whitespace), and the fields' labels each paired with the submitter's
corresponding answer in original field order, each carrying that field's
inline flag. -/
theorem c3_result_message_composition (ttl : Int) (form : Form)
    (inputs : List (List Char)) (m : CreateQuickModal)
    (httl : State.cooldown ttl = none) (hqm : form.quick_modal = some m) :
    (runPipeline ttl (some form) true (some inputs) true).resultMessage =
      some { content :=
               match form.mention, form.description with
               | none, none => none
               | some mn, none => some (trimEnd (mn.mentionText ++ ['\n']))
               | none, some dsc => some (trimEnd dsc)
               | some mn, some dsc => some (trimEnd (mn.mentionText ++ '\n' :: dsc)),
             embedFields := List.zipWith
               (fun fld v => { name := fld.name, value := v, inline := fld.inline })
               form.fields inputs } := by
  have hrun : (runPipeline ttl (some form) true (some inputs) true).resultMessage =
      some (create_response_message form inputs) := by
    simp [runPipeline, httl, hqm]
  rw [hrun, create_response_message_eq]

/-- The one-line modal of `sampleForm1`, used by witnesses. -/
theorem sampleForm1_quick_modal :
    sampleForm1.quick_modal = some
      { title := ("My Title").data, timeout := some 600,
        fields := [(sampleField ("Field 0").data).input_text (Nat.toDigits 10 0)] } := rfl

/-- Witness for C3: the concrete form with a role mention, a description
and one field, answered with one input. -/
theorem c3_result_message_composition_witness :
    (runPipeline 0 (some sampleForm1) true (some [("hi").data]) true).resultMessage =
      some { content := some (trimEnd
               ((SerializableMention.role 9).mentionText ++ '\n' :: ("Please read").data)),
             embedFields := [{ name := ("Field 0").data, value := ("hi").data,
                               inline := false }] } :=
  c3_result_message_composition 0 sampleForm1 [("hi").data]
    { title := ("My Title").data, timeout := some 600,
      fields := [(sampleField ("Field 0").data).input_text (Nat.toDigits 10 0)] }
    rfl rfl

/-- Claim C8: `quick_modal` returns nothing exactly for a fieldless form,
and otherwise a prompt with the fixed 600-second timeout whose lines
mirror the field order; in the pipeline, a found form with zero fields
yields the configuration-error report — textually distinct from the
not-found report — and neither the prompt nor the dispatcher is reached. -/
theorem c8_fieldless_form_misconfigured (form : Form) (ttl : Int)
    (permissionOk : Bool) (promptResult : Option (List (List Char)))
    (dispatchOk : Bool) (httl : State.cooldown ttl = none) :
    (form.quick_modal = none ↔ form.fields = [])
  ∧ (∀ m, form.quick_modal = some m → m.timeout = some 600 ∧
      m.fields.map CreateInputText.label = form.fields.map FormField.name)
  ∧ (form.fields = [] →
      (runPipeline ttl (some form) permissionOk promptResult dispatchOk).report
          = some .notConfigured
    ∧ (runPipeline ttl (some form) permissionOk promptResult dispatchOk).dispatcherCalled
          = false
    ∧ (runPipeline ttl (some form) permissionOk promptResult dispatchOk).promptShown
          = false
    ∧ Report.notConfigured.content ≠ Report.formMissing.content) := by
  refine ⟨?_, ?_, ?_⟩
  · by_cases he : form.fields.isEmpty <;>
      simp_all [Form.quick_modal, List.isEmpty_iff]
  · intro m hm
    unfold Form.quick_modal at hm
    split at hm
    · cases hm
    · cases hm
      refine ⟨rfl, ?_⟩
      rw [List.map_map]
      have h1 : (CreateInputText.label ∘ fun p : Nat × FormField =>
          p.2.input_text (Nat.toDigits 10 p.1)) = (fun p : Nat × FormField => p.2.name) := by
        funext p
        exact input_text_label p.2 _
      have h2 : (fun p : Nat × FormField => p.2.name) = FormField.name ∘ Prod.snd := rfl
      rw [h1, h2, ← List.map_map, List.enum_map_snd]
  · intro hf
    have hqm : form.quick_modal = none := by simp [Form.quick_modal, hf]
    have hout : runPipeline ttl (some form) permissionOk promptResult dispatchOk =
        { report := some .notConfigured, promptShown := false,
          dispatcherCalled := false, triggerCalled := false, finalTTL := ttl,
          resultMessage := none } := by
      cases permissionOk <;> simp [runPipeline, httl, hqm]
    rw [hout]
    exact ⟨rfl, rfl, rfl, by decide⟩

/-- Witness for C8: the concrete fieldless form is reported as
misconfigured. -/
theorem c8_fieldless_form_misconfigured_witness :
    (runPipeline 0 (some sampleForm0) true none true).report = some .notConfigured :=
  ((c8_fieldless_form_misconfigured sampleForm0 0 true none true rfl).2.2 rfl).1

/-- Claim C10: every length validation at the aggregate's interface
compares the UTF-8 byte length of the string against its cap — 256 for
titles through create and setTitle, 45 for field names through the
constructor and setName, 100 for placeholders through setPlaceholder — so
a title of 100 four-byte characters, whose character count is within the
cap, is rejected ValueTooLong, while every ASCII string within the cap is
accepted. -/
theorem c10_length_checks_are_bytewise :
    (∀ t dest, (∃ g, Form.new t dest = .ok g) ↔ strBytes t ≤ 256)
  ∧ (∀ (f : Form) t, (f.set_title t).1 = .ok () ↔ strBytes t ≤ 256)
  ∧ (∀ n s, (∃ g, FormField.new n s = .ok g) ↔ strBytes n ≤ 45)
  ∧ (∀ (f : FormField) n, (f.set_name n).1 = .ok () ↔ strBytes n ≤ 45)
  ∧ (∀ (f : FormField) p, (f.set_placeholder (some p)).1 = .ok () ↔ strBytes p ≤ 100)
  ∧ (∃ t : List Char, t.length ≤ 256 ∧ Form.validate_title t = .error .valueTooLong)
  ∧ (∀ t, (∀ c ∈ t, c.toNat ≤ 127) → t.length ≤ 256 → Form.validate_title t = .ok ())
  ∧ (∀ n, (∀ c ∈ n, c.toNat ≤ 127) → n.length ≤ 45 → FormField.validate_name n = .ok ())
  ∧ (∀ (f : FormField) p, (∀ c ∈ p, c.toNat ≤ 127) → p.length ≤ 100 →
      (f.set_placeholder (some p)).1 = .ok ()) := by
  have vt : ∀ t, Form.validate_title t = .ok () ↔ strBytes t ≤ 256 := by
    intro t
    by_cases h : strBytes t > 256 <;> simp [Form.validate_title, h] <;> omega
  have vn : ∀ n, FormField.validate_name n = .ok () ↔ strBytes n ≤ 45 := by
    intro n
    by_cases h : strBytes n > 45 <;>
      simp [FormField.validate_name, LABEL_MAX_LENGTH, h] <;> omega
  have vp : ∀ (f : FormField) p,
      (f.set_placeholder (some p)).1 = .ok () ↔ strBytes p ≤ 100 := by
    intro f p
    by_cases h : strBytes p > 100 <;>
      simp [FormField.set_placeholder, PLACEHOLDER_MAX_LENGTH, h] <;> omega
  refine ⟨?_, ?_, ?_, ?_, vp,
    ⟨List.replicate 100 (Char.ofNat 119070), by decide, by rfl⟩,
    fun t ha hl => (vt t).mpr (by rw [strBytes_ascii t ha]; omega),
    fun n ha hl => (vn n).mpr (by rw [strBytes_ascii n ha]; omega),
    fun f p ha hl => (vp f p).mpr (by rw [strBytes_ascii p ha]; omega)⟩
  · intro t dest
    rw [← vt t]
    unfold Form.new
    rcases h : Form.validate_title t with e | u
    · rcases e
      simp [h]
    · rcases u
      simp [h]
  · intro f t
    rw [← vt t]
    unfold Form.set_title
    rcases h : Form.validate_title t with e | u
    · rcases e
      simp [h]
    · rcases u
      simp [h]
  · intro n s
    rw [← vn n]
    unfold FormField.new
    rcases h : FormField.validate_name n with e | u
    · rcases e
      simp [h]
    · rcases u
      simp [h]
  · intro f n
    rw [← vn n]
    unfold FormField.set_name
    rcases h : FormField.validate_name n with e | u
    · rcases e
      simp [h]
    · rcases u
      simp [h]

/-- Witness for C10: an ASCII title within the cap passes validation and
creation succeeds. -/
theorem c10_length_checks_are_bytewise_witness :
    Form.validate_title ("hello").data = .ok ()
  ∧ (∃ g, Form.new ("hello").data 1 = .ok g) :=
  ⟨c10_length_checks_are_bytewise.2.2.2.2.2.2.1 ("hello").data (by decide) (by decide),
   (c10_length_checks_are_bytewise.1 ("hello").data 1).mpr (by decide)⟩

end Formsbot
